import Mathlib

/-!
Verification of the imaging-reports service: a shallow embedding of the report
schemas (ct_models.py, mammo_models.py), the extraction orchestrator
(md_to_json.py) and the per-kind request handlers (app.py), with the external
collaborators (the LLM chat call, json.loads, the PDF conversion call) given
as explicit inputs.
-/

/-- A calendar date as produced by the Python date type. -/
structure PyDate where
  year : Nat
  month : Nat
  day : Nat
deriving DecidableEq, Repr

/-- A Python value as it appears in extraction results and dumped models:
the JSON universe plus None and date objects. -/
inductive PyVal where
  | none_ : PyVal
  | bool : Bool → PyVal
  | int : Int → PyVal
  | float : Rat → PyVal
  | str : String → PyVal
  | date : PyDate → PyVal
  | list : List PyVal → PyVal
  | dict : List (String × PyVal) → PyVal

/-- Python dict access by key (keys of genuine dicts are unique). -/
def lookupKey (kvs : List (String × PyVal)) (name : String) : Option PyVal :=
  match kvs with
  | [] => none
  | (k, v) :: rest => if k = name then some v else lookupKey rest name

/-- Python truthiness of a value, as used by the handlers. -/
def PyVal.isTruthy : PyVal → Bool
  | .none_ => false
  | .bool b => b
  | .int n => n != 0
  | .float q => q != 0
  | .str s => s != ""
  | .date _ => true
  | .list xs => !xs.isEmpty
  | .dict kvs => !kvs.isEmpty

example : lookupKey [("a", .int 1), ("b", .none_)] "b" = some .none_ := rfl
example : (PyVal.dict []).isTruthy = false := rfl

/-! ## Numeric and date string parsing

These model the string-to-number and string-to-date conversions that pydantic
lax validation applies: an integer literal for int fields, a decimal literal
for float fields, and a padded YYYY-MM-DD literal for date fields. -/

/-- Value of a decimal digit character. -/
def digitVal (c : Char) : Nat := c.toNat - 48

/-- Accumulate decimal digits; fails on a non-digit. -/
def parseNatAux : List Char → Nat → Option Nat
  | [], acc => some acc
  | c :: cs, acc => if c.isDigit then parseNatAux cs (acc * 10 + digitVal c) else none

/-- A non-empty all-digit string as a natural number. -/
def parseNatDigits (cs : List Char) : Option Nat :=
  if cs.isEmpty then none else parseNatAux cs 0

/-- An optionally signed integer literal, as accepted for an int field. -/
def parsePyInt (s : String) : Option Int :=
  match s.toList with
  | '-' :: cs => (parseNatDigits cs).map (fun n => -(n : Int))
  | '+' :: cs => (parseNatDigits cs).map (fun n => (n : Int))
  | cs => (parseNatDigits cs).map (fun n => (n : Int))

/-- Digits-only check. -/
def allDigits (cs : List Char) : Bool := cs.all Char.isDigit

/-- An unsigned decimal literal (digits, optionally a point and digits, at
least one digit in total) as an exact rational. -/
def parseUnsignedFloat (cs : List Char) : Option Rat :=
  match cs.span (· ≠ '.') with
  | (intPart, []) =>
    if !intPart.isEmpty && allDigits intPart then
      (parseNatAux intPart 0).map (fun n => mkRat (Int.ofNat n) 1)
    else none
  | (intPart, _ :: fracPart) =>
    if allDigits intPart && allDigits fracPart &&
        (!intPart.isEmpty || !fracPart.isEmpty) then
      match parseNatAux intPart 0, parseNatAux fracPart 0 with
      | some ip, some fp =>
        some (mkRat (Int.ofNat (ip * 10 ^ fracPart.length + fp)) (10 ^ fracPart.length))
      | _, _ => none
    else none

/-- An optionally signed decimal literal, as accepted for a float field. -/
def parsePyFloat (s : String) : Option Rat :=
  match s.toList with
  | '-' :: cs => (parseUnsignedFloat cs).map Rat.neg
  | '+' :: cs => (parseUnsignedFloat cs).map (fun q => q)
  | cs => parseUnsignedFloat cs

/-- Gregorian leap-year test. -/
def isLeapYear (y : Nat) : Bool := y % 4 == 0 && (y % 100 != 0 || y % 400 == 0)

/-- Number of days in a month. -/
def daysInMonth (y m : Nat) : Nat :=
  if m = 2 then (if isLeapYear y then 29 else 28)
  else if m = 4 || m = 6 || m = 9 || m = 11 then 30
  else 31

/-- A padded ISO YYYY-MM-DD literal as a valid calendar date, the format the
extraction prompt requests and pydantic accepts for a date field. -/
def parseIsoDate (s : String) : Option PyDate :=
  match s.toList with
  | [y1, y2, y3, y4, '-', m1, m2, '-', d1, d2] =>
    if allDigits [y1, y2, y3, y4, m1, m2, d1, d2] then
      let y := ((digitVal y1 * 10 + digitVal y2) * 10 + digitVal y3) * 10 + digitVal y4
      let mo := digitVal m1 * 10 + digitVal m2
      let da := digitVal d1 * 10 + digitVal d2
      if 1 ≤ y && 1 ≤ mo && mo ≤ 12 && 1 ≤ da && da ≤ daysInMonth y mo then
        some ⟨y, mo, da⟩
      else none
    else none
  | _ => none

/-- Two-digit zero-padded rendering. -/
def pad2 (n : Nat) : String := (if n < 10 then "0" else "") ++ toString n

/-- Four-digit zero-padded rendering. -/
def pad4 (n : Nat) : String :=
  (if n < 10 then "000" else if n < 100 then "00" else if n < 1000 then "0" else "")
    ++ toString n

/-- ISO rendering of a date value, as the HTTP layer serializes date objects
inside a response payload. -/
def isoDateStr (d : PyDate) : String :=
  pad4 d.year ++ "-" ++ pad2 d.month ++ "-" ++ pad2 d.day

example : parseIsoDate "2024-01-15" = some ⟨2024, 1, 15⟩ := rfl
example : parseIsoDate "2024-02-30" = none := rfl
example : isoDateStr ⟨2024, 1, 15⟩ = "2024-01-15" := rfl
example : parsePyFloat "3.25" = some (mkRat 13 4) := by decide
example : parsePyInt "-42" = some (-42) := rfl

/-! ## Pydantic lax field validation (leaf types)

Each validator models what the pydantic v2 constructor accepts in its default
lax mode for the corresponding annotation, restricted to the value universe
that extraction results can contain. -/

/-- A str field: accepts exactly strings. -/
def asStr : PyVal → Option String
  | .str s => some s
  | _ => none

/-- Recognized textual spellings of booleans. -/
def boolFromStr (s : String) : Option Bool :=
  let t := s.toLower
  if t = "0" || t = "off" || t = "f" || t = "false" || t = "n" || t = "no" then some false
  else if t = "1" || t = "on" || t = "t" || t = "true" || t = "y" || t = "yes" then some true
  else none

/-- A bool field: bools, the ints and floats 0 and 1, and the recognized
textual spellings. -/
def asBool : PyVal → Option Bool
  | .bool b => some b
  | .int n => if n = 0 then some false else if n = 1 then some true else none
  | .float q => if q = 0 then some false else if q = 1 then some true else none
  | .str s => boolFromStr s
  | _ => none

/-- An int field: ints, integral floats, and integer literals (bools are
rejected). -/
def asInt : PyVal → Option Int
  | .int n => some n
  | .float q => if q.den = 1 then some q.num else none
  | .str s => parsePyInt s
  | _ => none

/-- A float field: floats, ints, and decimal literals (bools are rejected). -/
def asFloat : PyVal → Option Rat
  | .int n => some (mkRat n 1)
  | .float q => some q
  | .str s => parsePyFloat s
  | _ => none

/-- A date field: date values and padded ISO date literals. -/
def asDate : PyVal → Option PyDate
  | .date d => some d
  | .str s => parseIsoDate s
  | _ => none

/-- An Optional annotation: None passes through, anything else must satisfy
the inner validator. -/
def optVal (vt : PyVal → Option α) : PyVal → Option (Option α)
  | .none_ => some none
  | w => (vt w).map some

/-- Element-wise validation of a list body. -/
def listValAux (vt : PyVal → Option α) : List PyVal → Option (List α)
  | [] => some []
  | w :: ws => (vt w).bind fun a => (listValAux vt ws).bind fun as => some (a :: as)

/-- A List annotation: accepts exactly JSON arrays, validated element-wise in
order. -/
def listVal (vt : PyVal → Option α) : PyVal → Option (List α)
  | .list ws => listValAux vt ws
  | _ => none

/-- A nested-model annotation: accepts exactly mappings, validated by the
nested model. -/
def asModel (validate : List (String × PyVal) → Option α) : PyVal → Option α
  | .dict kvs => validate kvs
  | _ => none

/-- A required field: it must be present and satisfy its validator. -/
def reqField (kvs : List (String × PyVal)) (name : String) (vt : PyVal → Option α) : Option α :=
  (lookupKey kvs name).bind vt

/-- An optional field with default None: absent gives None, a present value
must be None or satisfy the inner validator. -/
def optField (kvs : List (String × PyVal)) (name : String) (vt : PyVal → Option α) :
    Option (Option α) :=
  match lookupKey kvs name with
  | none => some none
  | some w => optVal vt w

/-- Dump of an optional field value: None or the embedded value. -/
def optDump (emb : α → PyVal) : Option α → PyVal
  | none => .none_
  | some a => emb a

/-! ## ct_models: the CT-scan and PET-CT report schemas

Each pydantic class from ct_models.py becomes a structure, a constructor
`validate` modelling pydantic construction from an untyped mapping (required
fields must be present and pass their lax validator; Optional fields default
to None; unknown keys are ignored), and `model_dump` producing the mapping of
every schema field in declaration order. -/

namespace ct_models

/-- A single measurement of a finding (free-form strings, unit embedded). -/
structure Measurement where
  length : Option String
  width : Option String
  depth : Option String

def Measurement.validate (kvs : List (String × PyVal)) : Option Measurement :=
  (optField kvs "length" asStr).bind fun length =>
  (optField kvs "width" asStr).bind fun width =>
  (optField kvs "depth" asStr).bind fun depth =>
  some ⟨length, width, depth⟩

def Measurement.model_dump (m : Measurement) : PyVal :=
  .dict [("length", optDump .str m.length), ("width", optDump .str m.width),
         ("depth", optDump .str m.depth)]

/-- A single finding within an organ or region. -/
structure Finding where
  location : String
  lobe : Option String
  measurements : Measurement
  suv_max_value : Option Rat
  description : String
  comparison : Option String

def Finding.validate (kvs : List (String × PyVal)) : Option Finding :=
  (reqField kvs "location" asStr).bind fun location =>
  (optField kvs "lobe" asStr).bind fun lobe =>
  (reqField kvs "measurements" (asModel Measurement.validate)).bind fun measurements =>
  (optField kvs "suv_max_value" asFloat).bind fun suv_max_value =>
  (reqField kvs "description" asStr).bind fun description =>
  (optField kvs "comparison" asStr).bind fun comparison =>
  some ⟨location, lobe, measurements, suv_max_value, description, comparison⟩

def Finding.model_dump (f : Finding) : PyVal :=
  .dict [("location", .str f.location), ("lobe", optDump .str f.lobe),
         ("measurements", f.measurements.model_dump),
         ("suv_max_value", optDump .float f.suv_max_value),
         ("description", .str f.description), ("comparison", optDump .str f.comparison)]

/-- Findings within a specific organ or system. -/
structure OrganSystem where
  organ : String
  hypermetabolic_region : String
  findings : List Finding

def OrganSystem.validate (kvs : List (String × PyVal)) : Option OrganSystem :=
  (reqField kvs "organ" asStr).bind fun organ =>
  (reqField kvs "hypermetabolic_region" asStr).bind fun hypermetabolic_region =>
  (reqField kvs "findings" (listVal (asModel Finding.validate))).bind fun findings =>
  some ⟨organ, hypermetabolic_region, findings⟩

def OrganSystem.model_dump (o : OrganSystem) : PyVal :=
  .dict [("organ", .str o.organ),
         ("hypermetabolic_region", .str o.hypermetabolic_region),
         ("findings", .list (o.findings.map Finding.model_dump))]

/-- The PET/CT report model. -/
structure PETCTReport where
  patient_name : String
  date_of_test : PyDate
  test_type : String
  organ_systems : List OrganSystem
  other_abnormalities : Option String
  impression : String
  hospital_lab_name : String
  hospital_lab_id : String

def PETCTReport.validate (kvs : List (String × PyVal)) : Option PETCTReport :=
  (reqField kvs "patient_name" asStr).bind fun patient_name =>
  (reqField kvs "date_of_test" asDate).bind fun date_of_test =>
  (reqField kvs "test_type" asStr).bind fun test_type =>
  (reqField kvs "organ_systems" (listVal (asModel OrganSystem.validate))).bind fun organ_systems =>
  (optField kvs "other_abnormalities" asStr).bind fun other_abnormalities =>
  (reqField kvs "impression" asStr).bind fun impression =>
  (reqField kvs "hospital_lab_name" asStr).bind fun hospital_lab_name =>
  (reqField kvs "hospital_lab_id" asStr).bind fun hospital_lab_id =>
  some ⟨patient_name, date_of_test, test_type, organ_systems, other_abnormalities,
        impression, hospital_lab_name, hospital_lab_id⟩

def PETCTReport.model_dump (r : PETCTReport) : PyVal :=
  .dict [("patient_name", .str r.patient_name),
         ("date_of_test", .date r.date_of_test),
         ("test_type", .str r.test_type),
         ("organ_systems", .list (r.organ_systems.map OrganSystem.model_dump)),
         ("other_abnormalities", optDump .str r.other_abnormalities),
         ("impression", .str r.impression),
         ("hospital_lab_name", .str r.hospital_lab_name),
         ("hospital_lab_id", .str r.hospital_lab_id)]

/-- A single lesion found in a CT scan. -/
structure Lesion where
  site : String
  max_length_cm : Option Rat
  width_cm : Option Rat
  depth_cm : Option Rat
  description : String

def Lesion.validate (kvs : List (String × PyVal)) : Option Lesion :=
  (reqField kvs "site" asStr).bind fun site =>
  (optField kvs "max_length_cm" asFloat).bind fun max_length_cm =>
  (optField kvs "width_cm" asFloat).bind fun width_cm =>
  (optField kvs "depth_cm" asFloat).bind fun depth_cm =>
  (reqField kvs "description" asStr).bind fun description =>
  some ⟨site, max_length_cm, width_cm, depth_cm, description⟩

def Lesion.model_dump (l : Lesion) : PyVal :=
  .dict [("site", .str l.site), ("max_length_cm", optDump .float l.max_length_cm),
         ("width_cm", optDump .float l.width_cm),
         ("depth_cm", optDump .float l.depth_cm),
         ("description", .str l.description)]

/-- The CT-scan report model. -/
structure CTScanReport where
  patient_name : String
  test_type : String
  date_of_test : PyDate
  imaging_site : String
  contrast_enhanced : Bool
  new_lesion_evidence : Bool
  lesions : List Lesion
  lymph_nodes_detected : Option Int
  impression : String
  imaging_comments : Option String
  hospital_name : Option String
  hospital_location : Option String

def CTScanReport.validate (kvs : List (String × PyVal)) : Option CTScanReport :=
  (reqField kvs "patient_name" asStr).bind fun patient_name =>
  (reqField kvs "test_type" asStr).bind fun test_type =>
  (reqField kvs "date_of_test" asDate).bind fun date_of_test =>
  (reqField kvs "imaging_site" asStr).bind fun imaging_site =>
  (reqField kvs "contrast_enhanced" asBool).bind fun contrast_enhanced =>
  (reqField kvs "new_lesion_evidence" asBool).bind fun new_lesion_evidence =>
  (reqField kvs "lesions" (listVal (asModel Lesion.validate))).bind fun lesions =>
  (optField kvs "lymph_nodes_detected" asInt).bind fun lymph_nodes_detected =>
  (reqField kvs "impression" asStr).bind fun impression =>
  (optField kvs "imaging_comments" asStr).bind fun imaging_comments =>
  (optField kvs "hospital_name" asStr).bind fun hospital_name =>
  (optField kvs "hospital_location" asStr).bind fun hospital_location =>
  some ⟨patient_name, test_type, date_of_test, imaging_site, contrast_enhanced,
        new_lesion_evidence, lesions, lymph_nodes_detected, impression,
        imaging_comments, hospital_name, hospital_location⟩

def CTScanReport.model_dump (r : CTScanReport) : PyVal :=
  .dict [("patient_name", .str r.patient_name),
         ("test_type", .str r.test_type),
         ("date_of_test", .date r.date_of_test),
         ("imaging_site", .str r.imaging_site),
         ("contrast_enhanced", .bool r.contrast_enhanced),
         ("new_lesion_evidence", .bool r.new_lesion_evidence),
         ("lesions", .list (r.lesions.map Lesion.model_dump)),
         ("lymph_nodes_detected", optDump .int r.lymph_nodes_detected),
         ("impression", .str r.impression),
         ("imaging_comments", optDump .str r.imaging_comments),
         ("hospital_name", optDump .str r.hospital_name),
         ("hospital_location", optDump .str r.hospital_location)]

end ct_models

/-! ## mammo_models: the mammogram report schema -/

namespace mammo_models

/-- Measurements of a finding in millimeters. -/
structure Measurement where
  length_mm : Option Int
  width_mm : Option Int

def Measurement.validate (kvs : List (String × PyVal)) : Option Measurement :=
  (optField kvs "length_mm" asInt).bind fun length_mm =>
  (optField kvs "width_mm" asInt).bind fun width_mm =>
  some ⟨length_mm, width_mm⟩

def Measurement.model_dump (m : Measurement) : PyVal :=
  .dict [("length_mm", optDump .int m.length_mm), ("width_mm", optDump .int m.width_mm)]

/-- A single finding within a breast. -/
structure Finding where
  category : Option String
  location : String
  measurements : Option Measurement
  shape : Option String
  density : Option String
  associated_calcifications : Option Bool
  associated_features : List String
  calcifications : Option String
  architectural_distortion : Option String
  skin_lesion : Option String

def Finding.validate (kvs : List (String × PyVal)) : Option Finding :=
  (optField kvs "category" asStr).bind fun category =>
  (reqField kvs "location" asStr).bind fun location =>
  (optField kvs "measurements" (asModel Measurement.validate)).bind fun measurements =>
  (optField kvs "shape" asStr).bind fun shape =>
  (optField kvs "density" asStr).bind fun density =>
  (optField kvs "associated_calcifications" asBool).bind fun associated_calcifications =>
  (reqField kvs "associated_features" (listVal asStr)).bind fun associated_features =>
  (optField kvs "calcifications" asStr).bind fun calcifications =>
  (optField kvs "architectural_distortion" asStr).bind fun architectural_distortion =>
  (optField kvs "skin_lesion" asStr).bind fun skin_lesion =>
  some ⟨category, location, measurements, shape, density, associated_calcifications,
        associated_features, calcifications, architectural_distortion, skin_lesion⟩

def Finding.model_dump (f : Finding) : PyVal :=
  .dict [("category", optDump .str f.category),
         ("location", .str f.location),
         ("measurements", optDump Measurement.model_dump f.measurements),
         ("shape", optDump .str f.shape),
         ("density", optDump .str f.density),
         ("associated_calcifications", optDump .bool f.associated_calcifications),
         ("associated_features", .list (f.associated_features.map .str)),
         ("calcifications", optDump .str f.calcifications),
         ("architectural_distortion", optDump .str f.architectural_distortion),
         ("skin_lesion", optDump .str f.skin_lesion)]

/-- The composition and findings of a single breast. -/
structure BreastComposition where
  name : String
  findings : List Finding

def BreastComposition.validate (kvs : List (String × PyVal)) : Option BreastComposition :=
  (reqField kvs "name" asStr).bind fun name =>
  (reqField kvs "findings" (listVal (asModel Finding.validate))).bind fun findings =>
  some ⟨name, findings⟩

def BreastComposition.model_dump (b : BreastComposition) : PyVal :=
  .dict [("name", .str b.name),
         ("findings", .list (b.findings.map Finding.model_dump))]

/-- The mammogram report model. -/
structure MammogramReport where
  patient_name : String
  test_type : String
  date_of_test : PyDate
  reason_for_test : String
  breast_composition : List BreastComposition
  birads_score : Int
  birads_composition_comments : String
  impression : Option String
  hospital_name : String
  lab_technician : Option String

def MammogramReport.validate (kvs : List (String × PyVal)) : Option MammogramReport :=
  (reqField kvs "patient_name" asStr).bind fun patient_name =>
  (reqField kvs "test_type" asStr).bind fun test_type =>
  (reqField kvs "date_of_test" asDate).bind fun date_of_test =>
  (reqField kvs "reason_for_test" asStr).bind fun reason_for_test =>
  (reqField kvs "breast_composition" (listVal (asModel BreastComposition.validate))).bind
    fun breast_composition =>
  (reqField kvs "birads_score" asInt).bind fun birads_score =>
  (reqField kvs "birads_composition_comments" asStr).bind fun birads_composition_comments =>
  (optField kvs "impression" asStr).bind fun impression =>
  (reqField kvs "hospital_name" asStr).bind fun hospital_name =>
  (optField kvs "lab_technician" asStr).bind fun lab_technician =>
  some ⟨patient_name, test_type, date_of_test, reason_for_test, breast_composition,
        birads_score, birads_composition_comments, impression, hospital_name,
        lab_technician⟩

def MammogramReport.model_dump (r : MammogramReport) : PyVal :=
  .dict [("patient_name", .str r.patient_name),
         ("test_type", .str r.test_type),
         ("date_of_test", .date r.date_of_test),
         ("reason_for_test", .str r.reason_for_test),
         ("breast_composition", .list (r.breast_composition.map BreastComposition.model_dump)),
         ("birads_score", .int r.birads_score),
         ("birads_composition_comments", .str r.birads_composition_comments),
         ("impression", optDump .str r.impression),
         ("hospital_name", .str r.hospital_name),
         ("lab_technician", optDump .str r.lab_technician)]

end mammo_models

/-! ## md_to_json: the extraction orchestrator

The external collaborators are explicit inputs: the outcome of the chat
completion call (which may raise, or return a message whose content is None
or text) and the json.loads parser (a String to Option PyVal black box, None
modelling a parse error). Raising is modelled by the error side of Except. -/

/-- Outcome of the external chat completion call. -/
inductive LLMOutcome where
  | failure (msg : String)
  | response (content : Option String)

/-- get_mistral_client: raises when the credential environment variable is
unset or empty, otherwise yields the (opaque) client. -/
def get_mistral_client (apiKey : Option String) : Except String Unit :=
  match apiKey with
  | none => .error "MISTRAL_API_KEY environment variable not set."
  | some k =>
    if k = "" then .error "MISTRAL_API_KEY environment variable not set."
    else .ok ()

/-- get_ctscan_json: acquires the client outside its try block (so a missing
credential raises), then inside the try block issues the chat call; a raised
transport error, a falsy (None or empty) content, or a json.loads failure all
yield the empty mapping, and otherwise the parsed value is returned. -/
def get_ctscan_json (loads : String → Option PyVal) (apiKey : Option String)
    (llm : LLMOutcome) : Except String PyVal :=
  match get_mistral_client apiKey with
  | .error e => .error e
  | .ok _ =>
    match llm with
    | .failure _ => .ok (.dict [])
    | .response none => .ok (.dict [])
    | .response (some content) =>
      if content = "" then .ok (.dict [])
      else
        match loads content with
        | some v => .ok v
        | none => .ok (.dict [])

/-- get_petct_json: same control flow as get_ctscan_json with the PET-CT
prompt and schema. -/
def get_petct_json (loads : String → Option PyVal) (apiKey : Option String)
    (llm : LLMOutcome) : Except String PyVal :=
  match get_mistral_client apiKey with
  | .error e => .error e
  | .ok _ =>
    match llm with
    | .failure _ => .ok (.dict [])
    | .response none => .ok (.dict [])
    | .response (some content) =>
      if content = "" then .ok (.dict [])
      else
        match loads content with
        | some v => .ok v
        | none => .ok (.dict [])

/-- get_mammogram_json: same control flow as get_ctscan_json with the
mammogram prompt and schema. -/
def get_mammogram_json (loads : String → Option PyVal) (apiKey : Option String)
    (llm : LLMOutcome) : Except String PyVal :=
  match get_mistral_client apiKey with
  | .error e => .error e
  | .ok _ =>
    match llm with
    | .failure _ => .ok (.dict [])
    | .response none => .ok (.dict [])
    | .response (some content) =>
      if content = "" then .ok (.dict [])
      else
        match loads content with
        | some v => .ok v
        | none => .ok (.dict [])

/-! ## app: the request handlers -/

/-- get_converter: raises when the credential environment variable is unset
or empty, otherwise yields the (opaque) conversion client. -/
def get_converter (apiKey : Option String) : Except String Unit :=
  match apiKey with
  | none => .error "MISTRAL_API_KEY environment variable not set."
  | some k =>
    if k = "" then .error "MISTRAL_API_KEY environment variable not set."
    else .ok ()

/-- The FastAPI HTTPException carrying a status code and a detail string. -/
structure HTTPException where
  status_code : Nat
  detail : String

/-- The response envelope shared by CTScanResponse, PETCTResponse and
MammogramResponse (three identical pydantic classes in app.py). -/
structure ReportResponse where
  success : Bool
  message : String
  data : Option PyVal
  processing_time : Option Rat

/-- Python str.strip removes exactly whitespace characters; the handler only
asks whether anything remains. -/
def isPyWhitespace (c : Char) : Bool :=
  c = ' ' || c = '\t' || c = '\n' || c = '\r' || c = '\x0b' || c = '\x0c'

/-- True when str.strip would leave the empty string, the falsy condition the
handlers test on the conversion result. -/
def stripIsEmpty (s : String) : Bool := s.toList.all isPyWhitespace

/-- The filename guard: a missing or empty filename is falsy, and otherwise
the lowercased name must end in the pdf suffix. -/
def validFilename : Option String → Bool
  | none => false
  | some f => ['.', 'p', 'd', 'f'].isSuffixOf (f.toList.map Char.toLower)

/-- Modelled from the spec: the message of the pydantic ValidationError that
the response-model constructor raises when the data value is not a mapping;
its exact text is third-party library detail not present in the repository. -/
def response_model_error : String := "validation error for response data"

/-- The per-request inputs and external-call outcomes a handler consumes:
the upload filename, the credential environment variable, the result of the
external PDF-to-markdown conversion (error side = a raised exception), the
chat-call outcome, the json.loads parser, and the observed elapsed time. -/
structure RequestEnv where
  filename : Option String
  apiKey : Option String
  convert : Except String String
  llm : LLMOutcome
  loads : String → Option PyVal
  elapsed : Rat

/-- What a handler run produces: the HTTP result (an envelope, or a raised
HTTPException), how many cleanup_temp_file background tasks were scheduled,
and how often the conversion and the extraction operation were invoked. -/
structure HandlerOutcome where
  result : Except HTTPException ReportResponse
  cleanups : Nat
  conversionCalls : Nat
  extractionCalls : Nat

/-- The shared body of the three report handlers, faithful to the shared
control flow of app.py: filename guard, temporary-file creation, converter
acquisition, conversion, whitespace guard, extraction, emptiness guard,
validation with fallback, and envelope construction. An HTTPException raised
in the body is re-raised unchanged by the first except clause (without
scheduling cleanup); any other exception is logged and converted to a 500
whose detail embeds the exception text, after scheduling cleanup. -/
def processReportCore (validate : List (String × PyVal) → Option PyVal)
    (okMessage : String → String) (env : RequestEnv)
    (extractResult : Except String PyVal) : HandlerOutcome :=
  if validFilename env.filename then
    match get_converter env.apiKey with
    | .error e =>
      ⟨.error ⟨500, "Internal server error: " ++ e⟩, 1, 0, 0⟩
    | .ok _ =>
      match env.convert with
      | .error e =>
        ⟨.error ⟨500, "Internal server error: " ++ e⟩, 1, 1, 0⟩
      | .ok markdown_text =>
        if stripIsEmpty markdown_text then
          ⟨.error ⟨400, "Failed to extract text from PDF"⟩, 0, 1, 0⟩
        else
          match extractResult with
          | .error e =>
            ⟨.error ⟨500, "Internal server error: " ++ e⟩, 1, 1, 1⟩
          | .ok structured_data =>
            if structured_data.isTruthy then
              match structured_data with
              | .dict kvs =>
                match validate kvs with
                | some validated_data =>
                  ⟨.ok ⟨true, okMessage (env.filename.getD ""), some validated_data,
                        some env.elapsed⟩, 1, 1, 1⟩
                | none =>
                  ⟨.ok ⟨true, okMessage (env.filename.getD ""), some (.dict kvs),
                        some env.elapsed⟩, 1, 1, 1⟩
              | _ =>
                ⟨.error ⟨500, "Internal server error: " ++ response_model_error⟩, 1, 1, 1⟩
            else
              ⟨.error ⟨400, "Failed to extract structured data from document"⟩, 0, 1, 1⟩
  else ⟨.error ⟨400, "Only PDF files are supported"⟩, 0, 0, 0⟩

/-- The POST ctscan_structured handler. -/
def process_ctscan_report (env : RequestEnv) : HandlerOutcome :=
  processReportCore
    (fun kvs => (ct_models.CTScanReport.validate kvs).map ct_models.CTScanReport.model_dump)
    (fun f => "Successfully processed CT Scan report: " ++ f)
    env (get_ctscan_json env.loads env.apiKey env.llm)

/-- The POST petct_structured handler. -/
def process_petct_report (env : RequestEnv) : HandlerOutcome :=
  processReportCore
    (fun kvs => (ct_models.PETCTReport.validate kvs).map ct_models.PETCTReport.model_dump)
    (fun f => "Successfully processed PETCT report: " ++ f)
    env (get_petct_json env.loads env.apiKey env.llm)

/-- The POST mammogram_structured handler. -/
def process_mammogram_report (env : RequestEnv) : HandlerOutcome :=
  processReportCore
    (fun kvs => (mammo_models.MammogramReport.validate kvs).map mammo_models.MammogramReport.model_dump)
    (fun f => "Successfully processed Mammogram report: " ++ f)
    env (get_mammogram_json env.loads env.apiKey env.llm)

/-- The three report kinds the service serves. -/
inductive ReportKind where
  | ct_scan
  | pet_ct
  | mammogram

/-- One handler per report kind. -/
def process_report : ReportKind → RequestEnv → HandlerOutcome
  | .ct_scan => process_ctscan_report
  | .pet_ct => process_petct_report
  | .mammogram => process_mammogram_report

/-- The per-kind extraction operation. -/
def extraction_of : ReportKind → (String → Option PyVal) → Option String →
    LLMOutcome → Except String PyVal
  | .ct_scan => get_ctscan_json
  | .pet_ct => get_petct_json
  | .mammogram => get_mammogram_json

/-- The per-kind validation-and-dump step the handlers try before falling
back to the raw mapping. -/
def validateDump : ReportKind → List (String × PyVal) → Option PyVal
  | .ct_scan, kvs => (ct_models.CTScanReport.validate kvs).map ct_models.CTScanReport.model_dump
  | .pet_ct, kvs => (ct_models.PETCTReport.validate kvs).map ct_models.PETCTReport.model_dump
  | .mammogram, kvs => (mammo_models.MammogramReport.validate kvs).map mammo_models.MammogramReport.model_dump

/-- The per-kind success message. -/
def successMessage : ReportKind → String → String
  | .ct_scan, f => "Successfully processed CT Scan report: " ++ f
  | .pet_ct, f => "Successfully processed PETCT report: " ++ f
  | .mammogram, f => "Successfully processed Mammogram report: " ++ f

/-! ## app: the health endpoint -/

/-- The health response model. -/
structure HealthResponse where
  status : String
  mistral_api_configured : Bool

/-- A health run: the HTTP result and how often each client accessor was
invoked. -/
structure HealthOutcome where
  result : Except HTTPException HealthResponse
  mistralClientCalls : Nat
  converterCalls : Nat

/-- The GET health handler: reads the credential variable for truthiness and,
only when it is set, exercises both client accessors before reporting; an
exception becomes a 500 whose detail embeds the exception text. Client
construction itself is modelled from the spec as free of network effects, so
the accessors fail only on a missing credential. -/
def health_check (apiKey : Option String) : HealthOutcome :=
  let mistral_configured : Bool := match apiKey with
    | none => false
    | some k => k ≠ ""
  if mistral_configured then
    match get_mistral_client apiKey with
    | .error e => ⟨.error ⟨500, "Service unhealthy: " ++ e⟩, 1, 0⟩
    | .ok _ =>
      match get_converter apiKey with
      | .error e => ⟨.error ⟨500, "Service unhealthy: " ++ e⟩, 1, 1⟩
      | .ok _ => ⟨.ok ⟨"healthy", mistral_configured⟩, 1, 1⟩
  else ⟨.ok ⟨"healthy", mistral_configured⟩, 0, 0⟩

/-! ## Helper lemmas -/

/-- The two lazily-initialized client accessors guard the same environment
variable with the same check. -/
theorem get_mistral_client_eq_get_converter : get_mistral_client = get_converter := rfl

/-- The condition under which the orchestrator signals failure by emptiness:
a raised chat-call error, a falsy content, or a parse failure. -/
def isEmptySignal (loads : String → Option PyVal) : LLMOutcome → Bool
  | .failure _ => true
  | .response none => true
  | .response (some c) => c = "" || (loads c).isNone

/-! ## Claim theorems -/

/-- Claim C5: an upload whose filename does not end in the pdf suffix
(case-insensitively) yields a 400 response from every report endpoint before
any further processing: no cleanup is scheduled and neither the conversion
nor the extraction operation is invoked. -/
theorem claim_C5 (k : ReportKind) (env : RequestEnv) (f : String)
    (hf : env.filename = some f)
    (hext : ['.', 'p', 'd', 'f'].isSuffixOf (f.toList.map Char.toLower) = false) :
    process_report k env = ⟨.error ⟨400, "Only PDF files are supported"⟩, 0, 0, 0⟩ := by
  have hv : validFilename env.filename = false := by rw [hf]; exact hext
  cases k <;>
    simp [process_report, process_ctscan_report, process_petct_report,
          process_mammogram_report, processReportCore, hv]

/-- Witness for C5 at a concrete txt upload. -/
theorem claim_C5_witness :
    process_report .ct_scan ⟨some "scan.txt", some "key", .ok "text", .response none, fun _ => none, 1⟩ =
      ⟨.error ⟨400, "Only PDF files are supported"⟩, 0, 0, 0⟩ :=
  claim_C5 .ct_scan _ "scan.txt" rfl (by decide)

/-- Claim C6: when the conversion step yields an empty or whitespace-only
string, every report endpoint returns a 400 response and the extraction
operation is not invoked. -/
theorem claim_C6 (k : ReportKind) (env : RequestEnv) (md : String)
    (hf : validFilename env.filename = true)
    (hkey : get_converter env.apiKey = .ok ())
    (hconv : env.convert = .ok md)
    (hws : stripIsEmpty md = true) :
    process_report k env = ⟨.error ⟨400, "Failed to extract text from PDF"⟩, 0, 1, 0⟩ := by
  cases k <;>
    simp [process_report, process_ctscan_report, process_petct_report,
          process_mammogram_report, processReportCore, hf, hkey, hconv, hws]

/-- Witness for C6 at a concrete whitespace-only conversion result. -/
theorem claim_C6_witness :
    process_report .mammogram ⟨some "scan.pdf", some "key", .ok " \t\n ", .response none, fun _ => none, 1⟩ =
      ⟨.error ⟨400, "Failed to extract text from PDF"⟩, 0, 1, 0⟩ :=
  claim_C6 .mammogram _ " \t\n " (by decide) rfl rfl (by decide)

/-- The request in which the conversion result is whitespace-only although a
temporary file was already created: the claimed cleanup is not scheduled. -/
def envC2 : RequestEnv :=
  ⟨some "report.pdf", some "key", .ok "   ", .response (some "resp"), fun _ => none, 1⟩

/-- Claim C2, evaluation at the failing input: a valid pdf upload whose
conversion yields whitespace-only text takes the 400 exit path after the
temporary file exists, and zero cleanup tasks are scheduled, because the
handler's first except clause re-raises the HTTPException without the
add_task call that only the generic except clause and the success path
perform. -/
theorem claim_C2_eval :
    process_ctscan_report envC2 = ⟨.error ⟨400, "Failed to extract text from PDF"⟩, 0, 1, 0⟩ ∧
    process_petct_report envC2 = ⟨.error ⟨400, "Failed to extract text from PDF"⟩, 0, 1, 0⟩ ∧
    process_mammogram_report envC2 = ⟨.error ⟨400, "Failed to extract text from PDF"⟩, 0, 1, 0⟩ :=
  ⟨rfl, rfl, rfl⟩

/-- Claim C9: with the credential variable unset the health endpoint reports
an unconfigured service without raising and without touching the clients;
with it set, it exercises initialization of the LLM client and the
conversion client before reporting. -/
theorem claim_C9 (k : String) (hk : k ≠ "") :
    health_check none = ⟨.ok ⟨"healthy", false⟩, 0, 0⟩ ∧
    health_check (some k) = ⟨.ok ⟨"healthy", true⟩, 1, 1⟩ := by
  refine ⟨rfl, ?_⟩
  simp [health_check, get_mistral_client, get_converter, hk]

/-- Witness for C9 at a concrete key. -/
theorem claim_C9_witness :
    health_check none = ⟨.ok ⟨"healthy", false⟩, 0, 0⟩ ∧
    health_check (some "key") = ⟨.ok ⟨"healthy", true⟩, 1, 1⟩ :=
  claim_C9 "key" (by decide)

/-- Claim C3: with the credential configured, each of the three extraction
operations returns normally on every chat-call outcome; a raised transport
or service error, a falsy content, or a parse failure yields the empty
mapping; and a non-empty mapping is returned only when a non-empty response
text parsed as JSON to exactly that mapping. -/
theorem claim_C3 (k : ReportKind) (loads : String → Option PyVal) (key : String)
    (hk : key ≠ "") (llm : LLMOutcome) :
    (∃ v, extraction_of k loads (some key) llm = .ok v) ∧
    (isEmptySignal loads llm = true →
      extraction_of k loads (some key) llm = .ok (.dict [])) ∧
    (∀ kvs, kvs ≠ [] → extraction_of k loads (some key) llm = .ok (.dict kvs) →
      ∃ c, llm = .response (some c) ∧ c ≠ "" ∧ loads c = some (.dict kvs)) := by
  have hcl : get_mistral_client (some key) = .ok () := by
    simp [get_mistral_client, hk]
  cases k <;>
    · simp only [extraction_of, get_ctscan_json, get_petct_json, get_mammogram_json, hcl]
      cases llm with
      | failure m => simp [isEmptySignal]
      | response content =>
        cases content with
        | none => simp [isEmptySignal]
        | some c =>
          by_cases hc : c = "" <;> simp only [isEmptySignal, hc, if_pos, if_neg, if_true, if_false]
          · simp
          · cases hl : loads c with
            | none => simp [hl]
            | some v =>
              refine ⟨⟨v, rfl⟩, by simp [hl], ?_⟩
              intro kvs hne hv
              cases hv
              exact ⟨c, rfl, hc, hl⟩

/-- Witness for C3 at a concrete failing chat call. -/
theorem claim_C3_witness :
    (∃ v, extraction_of .ct_scan (fun _ => none) (some "key") (.failure "boom") = .ok v) ∧
    (isEmptySignal (fun _ => none) (.failure "boom") = true →
      extraction_of .ct_scan (fun _ => none) (some "key") (.failure "boom") = .ok (.dict [])) ∧
    (∀ kvs, kvs ≠ [] →
      extraction_of .ct_scan (fun _ => none) (some "key") (.failure "boom") = .ok (.dict kvs) →
      ∃ c, (LLMOutcome.failure "boom") = .response (some c) ∧ c ≠ "" ∧
        (fun _ => (none : Option PyVal)) c = some (.dict kvs)) :=
  claim_C3 .ct_scan (fun _ => none) "key" (by decide) (.failure "boom")

/-- Claim C1: for every report kind, when the extraction result is a
non-empty mapping on which construction of the typed report fails, the
handler still returns success with the original untyped mapping as data,
rather than a server error or dropped data. -/
theorem claim_C1 (k : ReportKind) (env : RequestEnv) (c md : String)
    (kvs : List (String × PyVal))
    (hf : validFilename env.filename = true)
    (hkey : get_converter env.apiKey = .ok ())
    (hconv : env.convert = .ok md) (hws : stripIsEmpty md = false)
    (hllm : env.llm = .response (some c)) (hc : c ≠ "")
    (hloads : env.loads c = some (.dict kvs)) (hne : kvs ≠ [])
    (hval : validateDump k kvs = none) :
    (process_report k env).result =
      .ok ⟨true, successMessage k (env.filename.getD ""), some (.dict kvs),
           some env.elapsed⟩ := by
  have hcl : get_mistral_client env.apiKey = .ok () := by
    rw [get_mistral_client_eq_get_converter]; exact hkey
  cases k <;>
    simp [process_report, process_ctscan_report, process_petct_report,
          process_mammogram_report, processReportCore, successMessage,
          get_ctscan_json, get_petct_json, get_mammogram_json,
          hf, hkey, hconv, hws, hllm, hc, hloads, hcl, PyVal.isTruthy,
          List.isEmpty_eq_true, hne, validateDump] at hval ⊢ <;>
    simp [hval]

/-- Witness for C1: a non-empty mapping missing every required field fails
validation and is passed through unchanged with success. -/
theorem claim_C1_witness :
    (process_report .ct_scan
      ⟨some "report.pdf", some "key", .ok "Report text", .response (some "resp"),
       fun s => if s = "resp" then some (.dict [("unexpected", .str "x")]) else none, 1⟩).result =
      .ok ⟨true, "Successfully processed CT Scan report: report.pdf",
           some (.dict [("unexpected", .str "x")]), some 1⟩ :=
  claim_C1 .ct_scan _ "resp" "Report text" [("unexpected", .str "x")]
    (by decide) rfl rfl (by decide) rfl (by decide) rfl (by simp) rfl

/-- A request whose conversion step raises with one message. -/
def envC4a : RequestEnv :=
  ⟨some "report.pdf", some "key", .error "boom", .response none, fun _ => none, 1⟩

/-- The same request except that the raised message differs. -/
def envC4b : RequestEnv := { envC4a with convert := .error "different failure" }

/-- Claim C4, counterexample: two runs identical except for the text of the
unanticipated conversion exception produce different 500 bodies, each
embedding the exception text after the fixed prefix, so the body is not a
generic message free of internal detail. -/
theorem claim_C4_counterexample :
    (process_ctscan_report envC4a).result =
      .error ⟨500, "Internal server error: " ++ "boom"⟩ ∧
    (process_ctscan_report envC4b).result =
      .error ⟨500, "Internal server error: " ++ "different failure"⟩ ∧
    envC4b = { envC4a with convert := .error "different failure" } :=
  ⟨rfl, rfl, rfl⟩

/-- Claim C4 as amended: every 500 response from a report endpoint carries
the fixed prefix followed by the exception message (no stack trace is ever
included), and in particular an unanticipated conversion exception yields
exactly that body, with cleanup scheduled. -/
theorem claim_C4_amended (k : ReportKind) (env : RequestEnv) :
    (∀ he, (process_report k env).result = .error he → he.status_code = 500 →
      ∃ m, he.detail = "Internal server error: " ++ m) ∧
    (∀ e, validFilename env.filename = true → get_converter env.apiKey = .ok () →
      env.convert = .error e →
      process_report k env =
        ⟨.error ⟨500, "Internal server error: " ++ e⟩, 1, 1, 0⟩) := by
  constructor
  · intro he hres h500
    cases k <;>
      · simp only [process_report, process_ctscan_report, process_petct_report,
          process_mammogram_report, processReportCore] at hres
        split at hres
        · split at hres
          · cases hres; exact ⟨_, rfl⟩
          · split at hres
            · cases hres; exact ⟨_, rfl⟩
            · split at hres
              · cases hres; simp at h500
              · split at hres
                · cases hres; exact ⟨_, rfl⟩
                · split at hres
                  · split at hres
                    · split at hres <;> cases hres
                    · cases hres; exact ⟨_, rfl⟩
                  · cases hres; simp at h500
        · cases hres; simp at h500
  · intro e hf hkey hconv
    cases k <;>
      simp [process_report, process_ctscan_report, process_petct_report,
            process_mammogram_report, processReportCore, hf, hkey, hconv]

/-- Witness for C4 as amended, applied at the concrete failing conversion. -/
theorem claim_C4_amended_witness :
    (∃ m, ("Internal server error: " ++ "boom") = "Internal server error: " ++ m) ∧
    process_report .ct_scan envC4a =
      ⟨.error ⟨500, "Internal server error: " ++ "boom"⟩, 1, 1, 0⟩ :=
  ⟨(claim_C4_amended .ct_scan envC4a).1 ⟨500, "Internal server error: " ++ "boom"⟩ rfl rfl,
   (claim_C4_amended .ct_scan envC4a).2 "boom" (by decide) rfl rfl⟩

/-- Claim C10: a report endpoint never returns an envelope with a false
success flag: every returned envelope has success true, a non-empty data
mapping and a processing time, and every failure is instead conveyed by a
raised 400 or 500 HTTPException. -/
theorem claim_C10 (k : ReportKind) (env : RequestEnv) :
    (∀ e, (process_report k env).result = .ok e →
      e.success = true ∧ (∃ kvs, kvs ≠ [] ∧ e.data = some (.dict kvs)) ∧
        e.processing_time.isSome = true) ∧
    (∀ he, (process_report k env).result = .error he →
      he.status_code = 400 ∨ he.status_code = 500) := by
  constructor
  · intro e hres
    cases k <;>
      · simp only [process_report, process_ctscan_report, process_petct_report,
          process_mammogram_report, processReportCore] at hres
        split at hres
        · split at hres
          · cases hres
          · split at hres
            · cases hres
            · split at hres
              · cases hres
              · split at hres
                · cases hres
                · rename_i structured_data
                  split at hres
                  · rename_i htruthy
                    split at hres
                    · rename_i kvs
                      split at hres
                      · rename_i validated_data hv
                        cases hres
                        simp only [Option.map_eq_some'] at hv
                        obtain ⟨r, hr, hd⟩ := hv
                        subst hd
                        exact ⟨rfl, ⟨_, by simp [ct_models.CTScanReport.model_dump,
                          ct_models.PETCTReport.model_dump,
                          mammo_models.MammogramReport.model_dump], rfl⟩, rfl⟩
                      · cases hres
                        refine ⟨rfl, ⟨kvs, ?_, rfl⟩, rfl⟩
                        intro hkv
                        subst hkv
                        simp [PyVal.isTruthy] at htruthy
                    · cases hres
                  · cases hres
        · cases hres
  · intro he hres
    cases k <;>
      · simp only [process_report, process_ctscan_report, process_petct_report,
          process_mammogram_report, processReportCore] at hres
        split at hres
        · split at hres
          · cases hres; right; rfl
          · split at hres
            · cases hres; right; rfl
            · split at hres
              · cases hres; left; rfl
              · split at hres
                · cases hres; right; rfl
                · split at hres
                  · split at hres
                    · split at hres <;> cases hres
                    · cases hres; right; rfl
                  · cases hres; left; rfl
        · cases hres; left; rfl

/-- Witness for C10 at a concrete successful run. -/
theorem claim_C10_witness :
    (⟨true, "Successfully processed CT Scan report: report.pdf",
      some (.dict [("unexpected", .str "x")]), some (1 : Rat)⟩ : ReportResponse).success = true ∧
    (∃ kvs, kvs ≠ [] ∧
      (⟨true, "Successfully processed CT Scan report: report.pdf",
        some (.dict [("unexpected", .str "x")]), some (1 : Rat)⟩ : ReportResponse).data =
          some (.dict kvs)) ∧
    (⟨true, "Successfully processed CT Scan report: report.pdf",
      some (.dict [("unexpected", .str "x")]), some (1 : Rat)⟩ : ReportResponse).processing_time.isSome = true :=
  (claim_C10 .ct_scan
    ⟨some "report.pdf", some "key", .ok "Report text", .response (some "resp"),
     fun s => if s = "resp" then some (.dict [("unexpected", .str "x")]) else none, 1⟩).1
    _ rfl

/-- The extraction mapping of the minimal valid CT-scan example. -/
def c7input : List (String × PyVal) :=
  [("patient_name", .str "Jane Doe"), ("test_type", .str "CT"),
   ("date_of_test", .str "2024-01-15"), ("imaging_site", .str "Abdomen"),
   ("contrast_enhanced", .bool true), ("new_lesion_evidence", .bool false),
   ("lesions", .list []), ("impression", .str "No acute findings."),
   ("hospital_name", .str "General Hospital")]

/-- A request whose extraction yields the minimal valid CT-scan mapping. -/
def envC7 : RequestEnv :=
  ⟨some "report.pdf", some "key", .ok "Report text", .response (some "resp"),
   fun s => if s = "resp" then some (.dict c7input) else none, 1⟩

/-- Claim C7: on the minimal valid CT-scan extraction, the CT-scan handler
returns success, and the data's date_of_test field is the date 2024-01-15,
which the HTTP layer serializes as the string "2024-01-15". -/
theorem claim_C7 :
    ∃ e, (process_ctscan_report envC7).result = .ok e ∧ e.success = true ∧
      ∃ kvs, e.data = some (.dict kvs) ∧
        lookupKey kvs "date_of_test" = some (.date ⟨2024, 1, 15⟩) ∧
        isoDateStr ⟨2024, 1, 15⟩ = "2024-01-15" :=
  ⟨⟨true, "Successfully processed CT Scan report: report.pdf",
    some (.dict
      [("patient_name", .str "Jane Doe"), ("test_type", .str "CT"),
       ("date_of_test", .date ⟨2024, 1, 15⟩), ("imaging_site", .str "Abdomen"),
       ("contrast_enhanced", .bool true), ("new_lesion_evidence", .bool false),
       ("lesions", .list []), ("lymph_nodes_detected", .none_),
       ("impression", .str "No acute findings."), ("imaging_comments", .none_),
       ("hospital_name", .str "General Hospital"), ("hospital_location", .none_)]),
    some 1⟩, rfl, rfl,
   _, rfl, rfl, rfl⟩

/-! ## The round-trip coercion relation for claim C8

For each schema type a relation states, independently of the validators,
which output value may stand for a given input value after the coercion the
schema prescribes: strings unchanged, bool and int and float and date fields
obtained by the documented lax conversions, None for an absent or None
optional field, lists element-wise, nested models field-wise. The class-level
relations additionally pin the dumped mapping to exactly the schema fields in
declaration order, so unknown input keys are dropped and omitted optional
fields surface as None. -/

/-- Coercion for a str field: the value is returned unchanged. -/
def coercesStr (w out : PyVal) : Bool :=
  match w, out with
  | .str a, .str b => a == b
  | _, _ => false

/-- Coercion for a bool field: a bool unchanged, the ints and floats 0 and 1,
or a recognized textual spelling. -/
def coercesBool (w out : PyVal) : Bool :=
  match w, out with
  | .bool a, .bool b => a == b
  | .int n, .bool b => (n == 0 && !b) || (n == 1 && b)
  | .float q, .bool b => (q == 0 && !b) || (q == 1 && b)
  | .str s, .bool b => boolFromStr s == some b
  | _, _ => false

/-- Coercion for an int field: an int unchanged, an integral float, or an
integer literal. -/
def coercesInt (w out : PyVal) : Bool :=
  match w, out with
  | .int n, .int m => n == m
  | .float q, .int m => q.den == 1 && q.num == m
  | .str s, .int m => parsePyInt s == some m
  | _, _ => false

/-- Coercion for a float field: a float unchanged, an int widened, or a
decimal literal. -/
def coercesFloat (w out : PyVal) : Bool :=
  match w, out with
  | .int n, .float q => mkRat n 1 == q
  | .float a, .float b => a == b
  | .str s, .float b => parsePyFloat s == some b
  | _, _ => false

/-- Coercion for a date field: a date unchanged or a parsed ISO literal. -/
def coercesDate (w out : PyVal) : Bool :=
  match w, out with
  | .date a, .date b => a == b
  | .str s, .date b => parseIsoDate s == some b
  | _, _ => false

/-- Coercion for an Optional annotation: None stands for None, otherwise the
inner coercion applies. -/
def coercesOpt (coe : PyVal → PyVal → Bool) (w out : PyVal) : Bool :=
  match w, out with
  | .none_, .none_ => true
  | .none_, _ => false
  | _, _ => coe w out

/-- Element-wise coercion of list bodies of equal length. -/
def coercesListAux (coe : PyVal → PyVal → Bool) : List PyVal → List PyVal → Bool
  | [], [] => true
  | w :: ws, o :: os => coe w o && coercesListAux coe ws os
  | _, _ => false

/-- Coercion for a List annotation. -/
def coercesList (coe : PyVal → PyVal → Bool) (w out : PyVal) : Bool :=
  match w, out with
  | .list ws, .list os => coercesListAux coe ws os
  | _, _ => false

/-- One dumped field against the input mapping: a present input value must
coerce to the dumped value; an absent field must be optional and dumped as
None. -/
def fieldOkB (kvs : List (String × PyVal)) (name : String)
    (coe : PyVal → PyVal → Bool) (optional : Bool) (out : PyVal) : Bool :=
  match lookupKey kvs name with
  | some w => coe w out
  | none => optional && (match out with | .none_ => true | _ => false)

/-- A successful required-field validation yields a dumped value the field
coercion accepts. -/
theorem fieldOkB_req (vt : PyVal → Option α) (emb : α → PyVal)
    (coe : PyVal → PyVal → Bool)
    (hcoe : ∀ w a, vt w = some a → coe w (emb a) = true)
    (kvs : List (String × PyVal)) (n : String) (opt : Bool) (a : α)
    (h : reqField kvs n vt = some a) :
    fieldOkB kvs n coe opt (emb a) = true := by
  unfold reqField at h
  obtain ⟨w, hw, hv⟩ := Option.bind_eq_some.mp h
  unfold fieldOkB
  rw [hw]
  exact hcoe w a hv

/-- A successful optional-field validation yields a dumped value the lifted
field coercion accepts, also when the field was absent or None. -/
theorem fieldOkB_opt (vt : PyVal → Option α) (emb : α → PyVal)
    (coe : PyVal → PyVal → Bool)
    (hcoe : ∀ w a, vt w = some a → coe w (emb a) = true)
    (kvs : List (String × PyVal)) (n : String) (oa : Option α)
    (h : optField kvs n vt = some oa) :
    fieldOkB kvs n (coercesOpt coe) true (optDump emb oa) = true := by
  unfold optField at h
  unfold fieldOkB
  cases hl : lookupKey kvs n with
  | none =>
    rw [hl] at h
    cases h
    rfl
  | some w =>
    rw [hl] at h
    cases w with
    | none_ =>
      cases h
      rfl
    | bool b =>
      simp only [optVal, Option.map_eq_some'] at h
      obtain ⟨a, ha, hoa⟩ := h
      subst hoa
      exact hcoe _ a ha
    | int n =>
      simp only [optVal, Option.map_eq_some'] at h
      obtain ⟨a, ha, hoa⟩ := h
      subst hoa
      exact hcoe _ a ha
    | float q =>
      simp only [optVal, Option.map_eq_some'] at h
      obtain ⟨a, ha, hoa⟩ := h
      subst hoa
      exact hcoe _ a ha
    | str s =>
      simp only [optVal, Option.map_eq_some'] at h
      obtain ⟨a, ha, hoa⟩ := h
      subst hoa
      exact hcoe _ a ha
    | date d =>
      simp only [optVal, Option.map_eq_some'] at h
      obtain ⟨a, ha, hoa⟩ := h
      subst hoa
      exact hcoe _ a ha
    | list xs =>
      simp only [optVal, Option.map_eq_some'] at h
      obtain ⟨a, ha, hoa⟩ := h
      subst hoa
      exact hcoe _ a ha
    | dict d =>
      simp only [optVal, Option.map_eq_some'] at h
      obtain ⟨a, ha, hoa⟩ := h
      subst hoa
      exact hcoe _ a ha

/-- Lift a class-level coercion soundness fact through the nested-model
validator. -/
theorem asModel_coerces_of (validate : List (String × PyVal) → Option α)
    (dump : α → PyVal) (coe : PyVal → PyVal → Bool)
    (hcls : ∀ kvs c, validate kvs = some c → coe (.dict kvs) (dump c) = true) :
    ∀ w c, asModel validate w = some c → coe w (dump c) = true := by
  intro w c h
  cases w <;> simp only [asModel] at h <;> try exact absurd h (by simp)
  exact hcls _ c h

/-- Element-wise soundness for list bodies. -/
theorem coercesListAux_of (vt : PyVal → Option α) (emb : α → PyVal)
    (coe : PyVal → PyVal → Bool)
    (hcoe : ∀ w a, vt w = some a → coe w (emb a) = true) :
    ∀ ws xs, listValAux vt ws = some xs →
      coercesListAux coe ws (xs.map emb) = true := by
  intro ws
  induction ws with
  | nil =>
    intro xs h
    cases h
    rfl
  | cons w ws ih =>
    intro xs h
    simp only [listValAux] at h
    obtain ⟨a, ha, h2⟩ := Option.bind_eq_some.mp h
    obtain ⟨as, has, h3⟩ := Option.bind_eq_some.mp h2
    cases h3
    simp only [List.map, coercesListAux, Bool.and_eq_true]
    exact ⟨hcoe w a ha, ih as has⟩

/-- A successful List-annotation validation yields a dumped list the list
coercion accepts. -/
theorem coercesList_of (vt : PyVal → Option α) (emb : α → PyVal)
    (coe : PyVal → PyVal → Bool)
    (hcoe : ∀ w a, vt w = some a → coe w (emb a) = true) :
    ∀ w xs, listVal vt w = some xs →
      coercesList coe w (.list (xs.map emb)) = true := by
  intro w xs h
  cases w <;> simp only [listVal] at h <;> try exact absurd h (by simp)
  exact coercesListAux_of vt emb coe hcoe _ _ h

/-- Soundness of the str coercion against the str validator. -/
theorem coercesStr_of : ∀ w s, asStr w = some s → coercesStr w (.str s) = true := by
  intro w s h
  cases w with
  | str a =>
    cases Option.some.inj h
    simp [coercesStr]
  | none_ => exact Option.noConfusion h
  | bool b => exact Option.noConfusion h
  | int n => exact Option.noConfusion h
  | float q => exact Option.noConfusion h
  | date d => exact Option.noConfusion h
  | list xs => exact Option.noConfusion h
  | dict kvs => exact Option.noConfusion h

/-- Soundness of the bool coercion against the bool validator. -/
theorem coercesBool_of : ∀ w b, asBool w = some b → coercesBool w (.bool b) = true := by
  intro w b h
  cases w with
  | bool a =>
    cases Option.some.inj h
    simp [coercesBool]
  | int n =>
    simp only [asBool] at h
    split at h <;> rename_i hn
    · cases Option.some.inj h
      simp [coercesBool, hn]
    · split at h <;> rename_i hn1
      · cases Option.some.inj h
        simp [coercesBool, hn1]
      · exact Option.noConfusion h
  | float q =>
    simp only [asBool] at h
    split at h <;> rename_i hn
    · cases Option.some.inj h
      simp [coercesBool, hn]
    · split at h <;> rename_i hn1
      · cases Option.some.inj h
        simp [coercesBool, hn1]
      · exact Option.noConfusion h
  | str s =>
    simp only [asBool] at h
    simp [coercesBool, h]
  | none_ => exact Option.noConfusion h
  | date d => exact Option.noConfusion h
  | list xs => exact Option.noConfusion h
  | dict kvs => exact Option.noConfusion h

/-- Soundness of the int coercion against the int validator. -/
theorem coercesInt_of : ∀ w m, asInt w = some m → coercesInt w (.int m) = true := by
  intro w m h
  cases w with
  | int n =>
    cases Option.some.inj h
    simp [coercesInt]
  | float q =>
    simp only [asInt] at h
    split at h <;> rename_i hd
    · cases Option.some.inj h
      simp [coercesInt, hd]
    · exact Option.noConfusion h
  | str s =>
    simp only [asInt] at h
    simp [coercesInt, h]
  | none_ => exact Option.noConfusion h
  | bool b => exact Option.noConfusion h
  | date d => exact Option.noConfusion h
  | list xs => exact Option.noConfusion h
  | dict kvs => exact Option.noConfusion h

/-- Soundness of the float coercion against the float validator. -/
theorem coercesFloat_of : ∀ w q, asFloat w = some q → coercesFloat w (.float q) = true := by
  intro w q h
  cases w with
  | int n =>
    cases Option.some.inj h
    simp [coercesFloat]
  | float a =>
    cases Option.some.inj h
    simp [coercesFloat]
  | str s =>
    simp only [asFloat] at h
    simp [coercesFloat, h]
  | none_ => exact Option.noConfusion h
  | bool b => exact Option.noConfusion h
  | date d => exact Option.noConfusion h
  | list xs => exact Option.noConfusion h
  | dict kvs => exact Option.noConfusion h

/-- Soundness of the date coercion against the date validator. -/
theorem coercesDate_of : ∀ w d, asDate w = some d → coercesDate w (.date d) = true := by
  intro w d h
  cases w with
  | date a =>
    cases Option.some.inj h
    simp [coercesDate]
  | str s =>
    simp only [asDate] at h
    simp [coercesDate, h]
  | none_ => exact Option.noConfusion h
  | bool b => exact Option.noConfusion h
  | int n => exact Option.noConfusion h
  | float q => exact Option.noConfusion h
  | list xs => exact Option.noConfusion h
  | dict kvs => exact Option.noConfusion h

namespace ct_models

/-- Round-trip relation for the ct Measurement schema: the dump has exactly
the three schema fields, each related to the input by the str coercion. -/
def Measurement.coerces (w out : PyVal) : Bool :=
  match w, out with
  | .dict kvs, .dict [(k1, length), (k2, width), (k3, depth)] =>
    (k1 == "length") && (k2 == "width") && (k3 == "depth") &&
    fieldOkB kvs "length" (coercesOpt coercesStr) true length &&
    fieldOkB kvs "width" (coercesOpt coercesStr) true width &&
    fieldOkB kvs "depth" (coercesOpt coercesStr) true depth
  | _, _ => false

/-- A validated ct Measurement dumps to a mapping in the round-trip
relation. -/
theorem measurement_coerces_sound :
    ∀ kvs m, Measurement.validate kvs = some m →
      Measurement.coerces (.dict kvs) m.model_dump = true := by
  intro kvs m h
  unfold Measurement.validate at h
  obtain ⟨length, h1, h⟩ := Option.bind_eq_some.mp h
  obtain ⟨width, h2, h⟩ := Option.bind_eq_some.mp h
  obtain ⟨depth, h3, h⟩ := Option.bind_eq_some.mp h
  cases Option.some.inj h
  simp [Measurement.coerces, Measurement.model_dump,
        fieldOkB_opt asStr PyVal.str coercesStr coercesStr_of kvs "length" length h1,
        fieldOkB_opt asStr PyVal.str coercesStr coercesStr_of kvs "width" width h2,
        fieldOkB_opt asStr PyVal.str coercesStr coercesStr_of kvs "depth" depth h3]

/-- Round-trip relation for the ct Finding schema. -/
def Finding.coerces (w out : PyVal) : Bool :=
  match w, out with
  | .dict kvs, .dict [(k1, location), (k2, lobe), (k3, measurements), (k4, suv_max_value),
                      (k5, description), (k6, comparison)] =>
    (k1 == "location") && (k2 == "lobe") && (k3 == "measurements") &&
    (k4 == "suv_max_value") && (k5 == "description") && (k6 == "comparison") &&
    fieldOkB kvs "location" coercesStr false location &&
    fieldOkB kvs "lobe" (coercesOpt coercesStr) true lobe &&
    fieldOkB kvs "measurements" Measurement.coerces false measurements &&
    fieldOkB kvs "suv_max_value" (coercesOpt coercesFloat) true suv_max_value &&
    fieldOkB kvs "description" coercesStr false description &&
    fieldOkB kvs "comparison" (coercesOpt coercesStr) true comparison
  | _, _ => false

/-- A validated ct Finding dumps to a mapping in the round-trip relation. -/
theorem finding_coerces_sound :
    ∀ kvs f, Finding.validate kvs = some f →
      Finding.coerces (.dict kvs) f.model_dump = true := by
  intro kvs f h
  unfold Finding.validate at h
  obtain ⟨location, h1, h⟩ := Option.bind_eq_some.mp h
  obtain ⟨lobe, h2, h⟩ := Option.bind_eq_some.mp h
  obtain ⟨measurements, h3, h⟩ := Option.bind_eq_some.mp h
  obtain ⟨suv_max_value, h4, h⟩ := Option.bind_eq_some.mp h
  obtain ⟨description, h5, h⟩ := Option.bind_eq_some.mp h
  obtain ⟨comparison, h6, h⟩ := Option.bind_eq_some.mp h
  cases Option.some.inj h
  simp [Finding.coerces, Finding.model_dump,
        fieldOkB_req asStr PyVal.str coercesStr coercesStr_of kvs "location" false location h1,
        fieldOkB_opt asStr PyVal.str coercesStr coercesStr_of kvs "lobe" lobe h2,
        fieldOkB_req (asModel Measurement.validate) Measurement.model_dump Measurement.coerces
          (asModel_coerces_of Measurement.validate Measurement.model_dump Measurement.coerces
            measurement_coerces_sound) kvs "measurements" false measurements h3,
        fieldOkB_opt asFloat PyVal.float coercesFloat coercesFloat_of kvs "suv_max_value"
          suv_max_value h4,
        fieldOkB_req asStr PyVal.str coercesStr coercesStr_of kvs "description" false
          description h5,
        fieldOkB_opt asStr PyVal.str coercesStr coercesStr_of kvs "comparison" comparison h6]

/-- Round-trip relation for the OrganSystem schema. -/
def OrganSystem.coerces (w out : PyVal) : Bool :=
  match w, out with
  | .dict kvs, .dict [(k1, organ), (k2, hypermetabolic_region), (k3, findings)] =>
    (k1 == "organ") && (k2 == "hypermetabolic_region") && (k3 == "findings") &&
    fieldOkB kvs "organ" coercesStr false organ &&
    fieldOkB kvs "hypermetabolic_region" coercesStr false hypermetabolic_region &&
    fieldOkB kvs "findings" (coercesList Finding.coerces) false findings
  | _, _ => false

/-- A validated OrganSystem dumps to a mapping in the round-trip relation. -/
theorem organSystem_coerces_sound :
    ∀ kvs o, OrganSystem.validate kvs = some o →
      OrganSystem.coerces (.dict kvs) o.model_dump = true := by
  intro kvs o h
  unfold OrganSystem.validate at h
  obtain ⟨organ, h1, h⟩ := Option.bind_eq_some.mp h
  obtain ⟨hypermetabolic_region, h2, h⟩ := Option.bind_eq_some.mp h
  obtain ⟨findings, h3, h⟩ := Option.bind_eq_some.mp h
  cases Option.some.inj h
  simp [OrganSystem.coerces, OrganSystem.model_dump,
        fieldOkB_req asStr PyVal.str coercesStr coercesStr_of kvs "organ" false organ h1,
        fieldOkB_req asStr PyVal.str coercesStr coercesStr_of kvs "hypermetabolic_region"
          false hypermetabolic_region h2,
        fieldOkB_req (listVal (asModel Finding.validate))
          (fun fs => PyVal.list (fs.map Finding.model_dump)) (coercesList Finding.coerces)
          (coercesList_of (asModel Finding.validate) Finding.model_dump Finding.coerces
            (asModel_coerces_of Finding.validate Finding.model_dump Finding.coerces
              finding_coerces_sound))
          kvs "findings" false findings h3]

/-- Round-trip relation for the PETCTReport schema. -/
def PETCTReport.coerces (w out : PyVal) : Bool :=
  match w, out with
  | .dict kvs, .dict [(k1, patient_name), (k2, date_of_test), (k3, test_type),
                      (k4, organ_systems), (k5, other_abnormalities), (k6, impression),
                      (k7, hospital_lab_name), (k8, hospital_lab_id)] =>
    (k1 == "patient_name") && (k2 == "date_of_test") && (k3 == "test_type") &&
    (k4 == "organ_systems") && (k5 == "other_abnormalities") && (k6 == "impression") &&
    (k7 == "hospital_lab_name") && (k8 == "hospital_lab_id") &&
    fieldOkB kvs "patient_name" coercesStr false patient_name &&
    fieldOkB kvs "date_of_test" coercesDate false date_of_test &&
    fieldOkB kvs "test_type" coercesStr false test_type &&
    fieldOkB kvs "organ_systems" (coercesList OrganSystem.coerces) false organ_systems &&
    fieldOkB kvs "other_abnormalities" (coercesOpt coercesStr) true other_abnormalities &&
    fieldOkB kvs "impression" coercesStr false impression &&
    fieldOkB kvs "hospital_lab_name" coercesStr false hospital_lab_name &&
    fieldOkB kvs "hospital_lab_id" coercesStr false hospital_lab_id
  | _, _ => false

/-- A validated PETCTReport dumps to a mapping in the round-trip relation. -/
theorem petct_coerces_sound :
    ∀ kvs r, PETCTReport.validate kvs = some r →
      PETCTReport.coerces (.dict kvs) r.model_dump = true := by
  intro kvs r h
  unfold PETCTReport.validate at h
  obtain ⟨patient_name, h1, h⟩ := Option.bind_eq_some.mp h
  obtain ⟨date_of_test, h2, h⟩ := Option.bind_eq_some.mp h
  obtain ⟨test_type, h3, h⟩ := Option.bind_eq_some.mp h
  obtain ⟨organ_systems, h4, h⟩ := Option.bind_eq_some.mp h
  obtain ⟨other_abnormalities, h5, h⟩ := Option.bind_eq_some.mp h
  obtain ⟨impression, h6, h⟩ := Option.bind_eq_some.mp h
  obtain ⟨hospital_lab_name, h7, h⟩ := Option.bind_eq_some.mp h
  obtain ⟨hospital_lab_id, h8, h⟩ := Option.bind_eq_some.mp h
  cases Option.some.inj h
  simp [PETCTReport.coerces, PETCTReport.model_dump,
        fieldOkB_req asStr PyVal.str coercesStr coercesStr_of kvs "patient_name" false
          patient_name h1,
        fieldOkB_req asDate PyVal.date coercesDate coercesDate_of kvs "date_of_test" false
          date_of_test h2,
        fieldOkB_req asStr PyVal.str coercesStr coercesStr_of kvs "test_type" false
          test_type h3,
        fieldOkB_req (listVal (asModel OrganSystem.validate))
          (fun os => PyVal.list (os.map OrganSystem.model_dump))
          (coercesList OrganSystem.coerces)
          (coercesList_of (asModel OrganSystem.validate) OrganSystem.model_dump
            OrganSystem.coerces
            (asModel_coerces_of OrganSystem.validate OrganSystem.model_dump
              OrganSystem.coerces organSystem_coerces_sound))
          kvs "organ_systems" false organ_systems h4,
        fieldOkB_opt asStr PyVal.str coercesStr coercesStr_of kvs "other_abnormalities"
          other_abnormalities h5,
        fieldOkB_req asStr PyVal.str coercesStr coercesStr_of kvs "impression" false
          impression h6,
        fieldOkB_req asStr PyVal.str coercesStr coercesStr_of kvs "hospital_lab_name" false
          hospital_lab_name h7,
        fieldOkB_req asStr PyVal.str coercesStr coercesStr_of kvs "hospital_lab_id" false
          hospital_lab_id h8]

end ct_models

namespace ct_models

/-- Round-trip relation for the Lesion schema. -/
def Lesion.coerces (w out : PyVal) : Bool :=
  match w, out with
  | .dict kvs, .dict [(k1, site), (k2, max_length_cm), (k3, width_cm), (k4, depth_cm),
                      (k5, description)] =>
    (k1 == "site") && (k2 == "max_length_cm") && (k3 == "width_cm") &&
    (k4 == "depth_cm") && (k5 == "description") &&
    fieldOkB kvs "site" coercesStr false site &&
    fieldOkB kvs "max_length_cm" (coercesOpt coercesFloat) true max_length_cm &&
    fieldOkB kvs "width_cm" (coercesOpt coercesFloat) true width_cm &&
    fieldOkB kvs "depth_cm" (coercesOpt coercesFloat) true depth_cm &&
    fieldOkB kvs "description" coercesStr false description
  | _, _ => false

/-- A validated Lesion dumps to a mapping in the round-trip relation. -/
theorem lesion_coerces_sound :
    ∀ kvs l, Lesion.validate kvs = some l →
      Lesion.coerces (.dict kvs) l.model_dump = true := by
  intro kvs l h
  unfold Lesion.validate at h
  obtain ⟨site, h1, h⟩ := Option.bind_eq_some.mp h
  obtain ⟨max_length_cm, h2, h⟩ := Option.bind_eq_some.mp h
  obtain ⟨width_cm, h3, h⟩ := Option.bind_eq_some.mp h
  obtain ⟨depth_cm, h4, h⟩ := Option.bind_eq_some.mp h
  obtain ⟨description, h5, h⟩ := Option.bind_eq_some.mp h
  cases Option.some.inj h
  simp [Lesion.coerces, Lesion.model_dump,
        fieldOkB_req asStr PyVal.str coercesStr coercesStr_of kvs "site" false site h1,
        fieldOkB_opt asFloat PyVal.float coercesFloat coercesFloat_of kvs "max_length_cm"
          max_length_cm h2,
        fieldOkB_opt asFloat PyVal.float coercesFloat coercesFloat_of kvs "width_cm"
          width_cm h3,
        fieldOkB_opt asFloat PyVal.float coercesFloat coercesFloat_of kvs "depth_cm"
          depth_cm h4,
        fieldOkB_req asStr PyVal.str coercesStr coercesStr_of kvs "description" false
          description h5]

/-- Round-trip relation for the CTScanReport schema. -/
def CTScanReport.coerces (w out : PyVal) : Bool :=
  match w, out with
  | .dict kvs, .dict [(k1, patient_name), (k2, test_type), (k3, date_of_test),
                      (k4, imaging_site), (k5, contrast_enhanced), (k6, new_lesion_evidence),
                      (k7, lesions), (k8, lymph_nodes_detected), (k9, impression),
                      (k10, imaging_comments), (k11, hospital_name), (k12, hospital_location)] =>
    (k1 == "patient_name") && (k2 == "test_type") && (k3 == "date_of_test") &&
    (k4 == "imaging_site") && (k5 == "contrast_enhanced") && (k6 == "new_lesion_evidence") &&
    (k7 == "lesions") && (k8 == "lymph_nodes_detected") && (k9 == "impression") &&
    (k10 == "imaging_comments") && (k11 == "hospital_name") && (k12 == "hospital_location") &&
    fieldOkB kvs "patient_name" coercesStr false patient_name &&
    fieldOkB kvs "test_type" coercesStr false test_type &&
    fieldOkB kvs "date_of_test" coercesDate false date_of_test &&
    fieldOkB kvs "imaging_site" coercesStr false imaging_site &&
    fieldOkB kvs "contrast_enhanced" coercesBool false contrast_enhanced &&
    fieldOkB kvs "new_lesion_evidence" coercesBool false new_lesion_evidence &&
    fieldOkB kvs "lesions" (coercesList Lesion.coerces) false lesions &&
    fieldOkB kvs "lymph_nodes_detected" (coercesOpt coercesInt) true lymph_nodes_detected &&
    fieldOkB kvs "impression" coercesStr false impression &&
    fieldOkB kvs "imaging_comments" (coercesOpt coercesStr) true imaging_comments &&
    fieldOkB kvs "hospital_name" (coercesOpt coercesStr) true hospital_name &&
    fieldOkB kvs "hospital_location" (coercesOpt coercesStr) true hospital_location
  | _, _ => false

/-- A validated CTScanReport dumps to a mapping in the round-trip
relation. -/
theorem ctscan_coerces_sound :
    ∀ kvs r, CTScanReport.validate kvs = some r →
      CTScanReport.coerces (.dict kvs) r.model_dump = true := by
  intro kvs r h
  unfold CTScanReport.validate at h
  obtain ⟨patient_name, h1, h⟩ := Option.bind_eq_some.mp h
  obtain ⟨test_type, h2, h⟩ := Option.bind_eq_some.mp h
  obtain ⟨date_of_test, h3, h⟩ := Option.bind_eq_some.mp h
  obtain ⟨imaging_site, h4, h⟩ := Option.bind_eq_some.mp h
  obtain ⟨contrast_enhanced, h5, h⟩ := Option.bind_eq_some.mp h
  obtain ⟨new_lesion_evidence, h6, h⟩ := Option.bind_eq_some.mp h
  obtain ⟨lesions, h7, h⟩ := Option.bind_eq_some.mp h
  obtain ⟨lymph_nodes_detected, h8, h⟩ := Option.bind_eq_some.mp h
  obtain ⟨impression, h9, h⟩ := Option.bind_eq_some.mp h
  obtain ⟨imaging_comments, h10, h⟩ := Option.bind_eq_some.mp h
  obtain ⟨hospital_name, h11, h⟩ := Option.bind_eq_some.mp h
  obtain ⟨hospital_location, h12, h⟩ := Option.bind_eq_some.mp h
  cases Option.some.inj h
  simp [CTScanReport.coerces, CTScanReport.model_dump,
        fieldOkB_req asStr PyVal.str coercesStr coercesStr_of kvs "patient_name" false
          patient_name h1,
        fieldOkB_req asStr PyVal.str coercesStr coercesStr_of kvs "test_type" false
          test_type h2,
        fieldOkB_req asDate PyVal.date coercesDate coercesDate_of kvs "date_of_test" false
          date_of_test h3,
        fieldOkB_req asStr PyVal.str coercesStr coercesStr_of kvs "imaging_site" false
          imaging_site h4,
        fieldOkB_req asBool PyVal.bool coercesBool coercesBool_of kvs "contrast_enhanced"
          false contrast_enhanced h5,
        fieldOkB_req asBool PyVal.bool coercesBool coercesBool_of kvs "new_lesion_evidence"
          false new_lesion_evidence h6,
        fieldOkB_req (listVal (asModel Lesion.validate))
          (fun ls => PyVal.list (ls.map Lesion.model_dump)) (coercesList Lesion.coerces)
          (coercesList_of (asModel Lesion.validate) Lesion.model_dump Lesion.coerces
            (asModel_coerces_of Lesion.validate Lesion.model_dump Lesion.coerces
              lesion_coerces_sound))
          kvs "lesions" false lesions h7,
        fieldOkB_opt asInt PyVal.int coercesInt coercesInt_of kvs "lymph_nodes_detected"
          lymph_nodes_detected h8,
        fieldOkB_req asStr PyVal.str coercesStr coercesStr_of kvs "impression" false
          impression h9,
        fieldOkB_opt asStr PyVal.str coercesStr coercesStr_of kvs "imaging_comments"
          imaging_comments h10,
        fieldOkB_opt asStr PyVal.str coercesStr coercesStr_of kvs "hospital_name"
          hospital_name h11,
        fieldOkB_opt asStr PyVal.str coercesStr coercesStr_of kvs "hospital_location"
          hospital_location h12]

end ct_models

namespace mammo_models

/-- Round-trip relation for the mammogram Measurement schema. -/
def Measurement.coerces (w out : PyVal) : Bool :=
  match w, out with
  | .dict kvs, .dict [(k1, length_mm), (k2, width_mm)] =>
    (k1 == "length_mm") && (k2 == "width_mm") &&
    fieldOkB kvs "length_mm" (coercesOpt coercesInt) true length_mm &&
    fieldOkB kvs "width_mm" (coercesOpt coercesInt) true width_mm
  | _, _ => false

/-- A validated mammogram Measurement dumps to a mapping in the round-trip
relation. -/
theorem mammo_measurement_coerces_sound :
    ∀ kvs m, Measurement.validate kvs = some m →
      Measurement.coerces (.dict kvs) m.model_dump = true := by
  intro kvs m h
  unfold Measurement.validate at h
  obtain ⟨length_mm, h1, h⟩ := Option.bind_eq_some.mp h
  obtain ⟨width_mm, h2, h⟩ := Option.bind_eq_some.mp h
  cases Option.some.inj h
  simp [Measurement.coerces, Measurement.model_dump,
        fieldOkB_opt asInt PyVal.int coercesInt coercesInt_of kvs "length_mm" length_mm h1,
        fieldOkB_opt asInt PyVal.int coercesInt coercesInt_of kvs "width_mm" width_mm h2]

/-- Round-trip relation for the mammogram Finding schema. -/
def Finding.coerces (w out : PyVal) : Bool :=
  match w, out with
  | .dict kvs, .dict [(k1, category), (k2, location), (k3, measurements), (k4, shape),
                      (k5, density), (k6, associated_calcifications), (k7, associated_features),
                      (k8, calcifications), (k9, architectural_distortion), (k10, skin_lesion)] =>
    (k1 == "category") && (k2 == "location") && (k3 == "measurements") &&
    (k4 == "shape") && (k5 == "density") && (k6 == "associated_calcifications") &&
    (k7 == "associated_features") && (k8 == "calcifications") &&
    (k9 == "architectural_distortion") && (k10 == "skin_lesion") &&
    fieldOkB kvs "category" (coercesOpt coercesStr) true category &&
    fieldOkB kvs "location" coercesStr false location &&
    fieldOkB kvs "measurements" (coercesOpt Measurement.coerces) true measurements &&
    fieldOkB kvs "shape" (coercesOpt coercesStr) true shape &&
    fieldOkB kvs "density" (coercesOpt coercesStr) true density &&
    fieldOkB kvs "associated_calcifications" (coercesOpt coercesBool) true
      associated_calcifications &&
    fieldOkB kvs "associated_features" (coercesList coercesStr) false associated_features &&
    fieldOkB kvs "calcifications" (coercesOpt coercesStr) true calcifications &&
    fieldOkB kvs "architectural_distortion" (coercesOpt coercesStr) true
      architectural_distortion &&
    fieldOkB kvs "skin_lesion" (coercesOpt coercesStr) true skin_lesion
  | _, _ => false

/-- A validated mammogram Finding dumps to a mapping in the round-trip
relation. -/
theorem mammo_finding_coerces_sound :
    ∀ kvs f, Finding.validate kvs = some f →
      Finding.coerces (.dict kvs) f.model_dump = true := by
  intro kvs f h
  unfold Finding.validate at h
  obtain ⟨category, h1, h⟩ := Option.bind_eq_some.mp h
  obtain ⟨location, h2, h⟩ := Option.bind_eq_some.mp h
  obtain ⟨measurements, h3, h⟩ := Option.bind_eq_some.mp h
  obtain ⟨shape, h4, h⟩ := Option.bind_eq_some.mp h
  obtain ⟨density, h5, h⟩ := Option.bind_eq_some.mp h
  obtain ⟨associated_calcifications, h6, h⟩ := Option.bind_eq_some.mp h
  obtain ⟨associated_features, h7, h⟩ := Option.bind_eq_some.mp h
  obtain ⟨calcifications, h8, h⟩ := Option.bind_eq_some.mp h
  obtain ⟨architectural_distortion, h9, h⟩ := Option.bind_eq_some.mp h
  obtain ⟨skin_lesion, h10, h⟩ := Option.bind_eq_some.mp h
  cases Option.some.inj h
  simp [Finding.coerces, Finding.model_dump,
        fieldOkB_opt asStr PyVal.str coercesStr coercesStr_of kvs "category" category h1,
        fieldOkB_req asStr PyVal.str coercesStr coercesStr_of kvs "location" false
          location h2,
        fieldOkB_opt (asModel Measurement.validate) Measurement.model_dump
          Measurement.coerces
          (asModel_coerces_of Measurement.validate Measurement.model_dump
            Measurement.coerces mammo_measurement_coerces_sound)
          kvs "measurements" measurements h3,
        fieldOkB_opt asStr PyVal.str coercesStr coercesStr_of kvs "shape" shape h4,
        fieldOkB_opt asStr PyVal.str coercesStr coercesStr_of kvs "density" density h5,
        fieldOkB_opt asBool PyVal.bool coercesBool coercesBool_of kvs
          "associated_calcifications" associated_calcifications h6,
        fieldOkB_req (listVal asStr) (fun ss => PyVal.list (ss.map PyVal.str))
          (coercesList coercesStr)
          (coercesList_of asStr PyVal.str coercesStr coercesStr_of)
          kvs "associated_features" false associated_features h7,
        fieldOkB_opt asStr PyVal.str coercesStr coercesStr_of kvs "calcifications"
          calcifications h8,
        fieldOkB_opt asStr PyVal.str coercesStr coercesStr_of kvs
          "architectural_distortion" architectural_distortion h9,
        fieldOkB_opt asStr PyVal.str coercesStr coercesStr_of kvs "skin_lesion"
          skin_lesion h10]

/-- Round-trip relation for the BreastComposition schema. -/
def BreastComposition.coerces (w out : PyVal) : Bool :=
  match w, out with
  | .dict kvs, .dict [(k1, name), (k2, findings)] =>
    (k1 == "name") && (k2 == "findings") &&
    fieldOkB kvs "name" coercesStr false name &&
    fieldOkB kvs "findings" (coercesList Finding.coerces) false findings
  | _, _ => false

/-- A validated BreastComposition dumps to a mapping in the round-trip
relation. -/
theorem breast_coerces_sound :
    ∀ kvs b, BreastComposition.validate kvs = some b →
      BreastComposition.coerces (.dict kvs) b.model_dump = true := by
  intro kvs b h
  unfold BreastComposition.validate at h
  obtain ⟨name, h1, h⟩ := Option.bind_eq_some.mp h
  obtain ⟨findings, h2, h⟩ := Option.bind_eq_some.mp h
  cases Option.some.inj h
  simp [BreastComposition.coerces, BreastComposition.model_dump,
        fieldOkB_req asStr PyVal.str coercesStr coercesStr_of kvs "name" false name h1,
        fieldOkB_req (listVal (asModel Finding.validate))
          (fun fs => PyVal.list (fs.map Finding.model_dump)) (coercesList Finding.coerces)
          (coercesList_of (asModel Finding.validate) Finding.model_dump Finding.coerces
            (asModel_coerces_of Finding.validate Finding.model_dump Finding.coerces
              mammo_finding_coerces_sound))
          kvs "findings" false findings h2]

/-- Round-trip relation for the MammogramReport schema. -/
def MammogramReport.coerces (w out : PyVal) : Bool :=
  match w, out with
  | .dict kvs, .dict [(k1, patient_name), (k2, test_type), (k3, date_of_test),
                      (k4, reason_for_test), (k5, breast_composition), (k6, birads_score),
                      (k7, birads_composition_comments), (k8, impression), (k9, hospital_name),
                      (k10, lab_technician)] =>
    (k1 == "patient_name") && (k2 == "test_type") && (k3 == "date_of_test") &&
    (k4 == "reason_for_test") && (k5 == "breast_composition") && (k6 == "birads_score") &&
    (k7 == "birads_composition_comments") && (k8 == "impression") &&
    (k9 == "hospital_name") && (k10 == "lab_technician") &&
    fieldOkB kvs "patient_name" coercesStr false patient_name &&
    fieldOkB kvs "test_type" coercesStr false test_type &&
    fieldOkB kvs "date_of_test" coercesDate false date_of_test &&
    fieldOkB kvs "reason_for_test" coercesStr false reason_for_test &&
    fieldOkB kvs "breast_composition" (coercesList BreastComposition.coerces) false
      breast_composition &&
    fieldOkB kvs "birads_score" coercesInt false birads_score &&
    fieldOkB kvs "birads_composition_comments" coercesStr false
      birads_composition_comments &&
    fieldOkB kvs "impression" (coercesOpt coercesStr) true impression &&
    fieldOkB kvs "hospital_name" coercesStr false hospital_name &&
    fieldOkB kvs "lab_technician" (coercesOpt coercesStr) true lab_technician
  | _, _ => false

/-- A validated MammogramReport dumps to a mapping in the round-trip
relation. -/
theorem mammogram_coerces_sound :
    ∀ kvs r, MammogramReport.validate kvs = some r →
      MammogramReport.coerces (.dict kvs) r.model_dump = true := by
  intro kvs r h
  unfold MammogramReport.validate at h
  obtain ⟨patient_name, h1, h⟩ := Option.bind_eq_some.mp h
  obtain ⟨test_type, h2, h⟩ := Option.bind_eq_some.mp h
  obtain ⟨date_of_test, h3, h⟩ := Option.bind_eq_some.mp h
  obtain ⟨reason_for_test, h4, h⟩ := Option.bind_eq_some.mp h
  obtain ⟨breast_composition, h5, h⟩ := Option.bind_eq_some.mp h
  obtain ⟨birads_score, h6, h⟩ := Option.bind_eq_some.mp h
  obtain ⟨birads_composition_comments, h7, h⟩ := Option.bind_eq_some.mp h
  obtain ⟨impression, h8, h⟩ := Option.bind_eq_some.mp h
  obtain ⟨hospital_name, h9, h⟩ := Option.bind_eq_some.mp h
  obtain ⟨lab_technician, h10, h⟩ := Option.bind_eq_some.mp h
  cases Option.some.inj h
  simp [MammogramReport.coerces, MammogramReport.model_dump,
        fieldOkB_req asStr PyVal.str coercesStr coercesStr_of kvs "patient_name" false
          patient_name h1,
        fieldOkB_req asStr PyVal.str coercesStr coercesStr_of kvs "test_type" false
          test_type h2,
        fieldOkB_req asDate PyVal.date coercesDate coercesDate_of kvs "date_of_test" false
          date_of_test h3,
        fieldOkB_req asStr PyVal.str coercesStr coercesStr_of kvs "reason_for_test" false
          reason_for_test h4,
        fieldOkB_req (listVal (asModel BreastComposition.validate))
          (fun bs => PyVal.list (bs.map BreastComposition.model_dump))
          (coercesList BreastComposition.coerces)
          (coercesList_of (asModel BreastComposition.validate)
            BreastComposition.model_dump BreastComposition.coerces
            (asModel_coerces_of BreastComposition.validate BreastComposition.model_dump
              BreastComposition.coerces breast_coerces_sound))
          kvs "breast_composition" false breast_composition h5,
        fieldOkB_req asInt PyVal.int coercesInt coercesInt_of kvs "birads_score" false
          birads_score h6,
        fieldOkB_req asStr PyVal.str coercesStr coercesStr_of kvs
          "birads_composition_comments" false birads_composition_comments h7,
        fieldOkB_opt asStr PyVal.str coercesStr coercesStr_of kvs "impression"
          impression h8,
        fieldOkB_req asStr PyVal.str coercesStr coercesStr_of kvs "hospital_name" false
          hospital_name h9,
        fieldOkB_opt asStr PyVal.str coercesStr coercesStr_of kvs "lab_technician"
          lab_technician h10]

end mammo_models

/-- The per-kind round-trip relation between an extraction mapping and the
dumped typed report. -/
def coercesReport : ReportKind → PyVal → PyVal → Bool
  | .ct_scan => ct_models.CTScanReport.coerces
  | .pet_ct => ct_models.PETCTReport.coerces
  | .mammogram => mammo_models.MammogramReport.coerces

/-- The CT-scan extraction mapping that supplies every required field with a
value of the declared type and omits every optional field. -/
def c8input : List (String × PyVal) :=
  [("patient_name", .str "A"), ("test_type", .str "CT"),
   ("date_of_test", .str "2024-01-15"), ("imaging_site", .str "S"),
   ("contrast_enhanced", .bool true), ("new_lesion_evidence", .bool false),
   ("lesions", .list []), ("impression", .str "I")]

/-- Claim C8, counterexample: on a mapping supplying every required CT-scan
field with a value of the declared type, construction succeeds but the dump
contains the key lymph_nodes_detected (with None) that the input did not
contain, so the result is not the input changed only by type coercions and
removal of non-schema fields: omitted optional fields are added as None. -/
theorem claim_C8_counterexample :
    ∃ out, validateDump .ct_scan c8input = some (.dict out) ∧
      lookupKey c8input "lymph_nodes_detected" = none ∧
      lookupKey out "lymph_nodes_detected" = some .none_ :=
  ⟨_, rfl, rfl, rfl⟩

/-- Claim C8 as amended: for each report kind and every extraction mapping
from which the typed report constructs successfully (in particular one
supplying every required field, and each supplied optional field, with a
value of the declared type), dumping the constructed report returns the
input mapping up to the type coercions prescribed by the schema, with fields
not in the schema removed and each omitted optional field added with a None
value: the dump has exactly the schema fields in declaration order, and each
present input field is related to its dumped value by the schema coercion. -/
theorem claim_C8_amended (k : ReportKind) (kvs : List (String × PyVal)) (out : PyVal)
    (h : validateDump k kvs = some out) :
    coercesReport k (.dict kvs) out = true := by
  cases k <;>
    · simp only [validateDump, Option.map_eq_some'] at h
      obtain ⟨r, hr, ho⟩ := h
      subst ho
      first
        | exact ct_models.ctscan_coerces_sound kvs r hr
        | exact ct_models.petct_coerces_sound kvs r hr
        | exact mammo_models.mammogram_coerces_sound kvs r hr

/-- Witness for C8 as amended at the minimal valid CT-scan mapping: the
dump keeps the supplied values, coerces the date literal to a date value,
and adds the omitted optional fields as None. -/
theorem claim_C8_amended_witness :
    coercesReport .ct_scan (.dict c7input)
      (.dict [("patient_name", .str "Jane Doe"), ("test_type", .str "CT"),
              ("date_of_test", .date ⟨2024, 1, 15⟩), ("imaging_site", .str "Abdomen"),
              ("contrast_enhanced", .bool true), ("new_lesion_evidence", .bool false),
              ("lesions", .list []), ("lymph_nodes_detected", .none_),
              ("impression", .str "No acute findings."), ("imaging_comments", .none_),
              ("hospital_name", .str "General Hospital"),
              ("hospital_location", .none_)]) = true :=
  claim_C8_amended .ct_scan c7input _ rfl
